import Mathlib

/-!
Verification of the scroll-performance subsystem of BewlyCat.

The development shallowly embeds three source units:
* `src/utils/performanceDiagnostics.ts` — the `PerformanceDiagnostics` class
  (frame sampler, scroll-gesture debouncing, report generation);
* the global scroll-state singleton (`useGlobalScrollState`) — reference-counted
  listeners, RAF-throttled producer, 150ms idle timer;
* the DPR optimization controller (`useDPRPerformanceFix`) and the
  body-class scrolling optimization (`useScrollingOptimization`).

Times and clock readings are modelled as rationals (JS numbers on the
non-exceptional paths exercised here), machine booleans as `Bool`,
JS `setTimeout`/`requestAnimationFrame` handles as `Option`/`Bool` flags
that record whether a callback is pending (a fired or cleared timer is
`none`/`false`: `clearTimeout` on a stale handle is a no-op in JS, and the
sources only ever test handles for truthiness before clearing them).
-/

namespace BewlyCat

/-! ## performanceDiagnostics.ts : data model -/

/-- One entry of `frameMetrics` (interface `FrameMetrics` in the source). -/
structure FrameMetrics where
  timestamp : ℚ
  frameTime : ℚ
  scrollTop : ℚ
  fps : ℚ
deriving DecidableEq, Repr

/-- Console warnings emitted by the sampler (`console.warn` calls). -/
inductive PerfWarning where
  /-- the per-second dropped-frame warning, carrying the windowed FPS -/
  | droppedFrame (fps : ℕ)
  /-- the per-frame long-frame warning, carrying the frame time -/
  | longFrame (frameTime : ℚ)
deriving DecidableEq, Repr

/-- Mutable state of the `PerformanceDiagnostics` singleton, together with the
closure variables of `startFrameMonitoring` (`lastTime`, `frameCountInSecond`,
`secondStart`) and a log of emitted warnings. `scrollTimeout` holds the
deadline of the pending end-of-scroll timer, if any. -/
structure DiagState where
  enabled : Bool
  frameMetrics : List FrameMetrics
  frameCount : ℕ
  droppedFrames : ℕ
  isScrolling : Bool
  scrollTimeout : Option ℚ
  cardCount : ℕ
  columnCount : ℕ
  lastTime : ℚ
  frameCountInSecond : ℕ
  secondStart : ℚ
  warnings : List PerfWarning
deriving DecidableEq, Repr

/-- `this.frameMetrics.push(sample); if (length > 100) shift()`. -/
def pushSample (m : List FrameMetrics) (x : FrameMetrics) : List FrameMetrics :=
  if 100 < (m ++ [x]).length then (m ++ [x]).tail else m ++ [x]

/-- The per-second FPS-window block of `measureFrame` (source lines 98–112):
on a window boundary, if scrolling and the windowed FPS is below 30, bump
`droppedFrames` and warn; then reset the window. The caller has already
incremented `frameCountInSecond` for the current frame. -/
def windowStep (s : DiagState) (currentTime : ℚ) : DiagState :=
  if 1000 ≤ currentTime - s.secondStart then
    if s.isScrolling ∧ s.frameCountInSecond < 30 then
      { s with droppedFrames := s.droppedFrames + 1,
               warnings := s.warnings ++ [PerfWarning.droppedFrame s.frameCountInSecond],
               frameCountInSecond := 0, secondStart := currentTime }
    else { s with frameCountInSecond := 0, secondStart := currentTime }
  else s

/-- The sampling block of `measureFrame` (source lines 114–132): while
scrolling with a positive frame delta, append a sample (with FIFO eviction
past 100 entries) and warn on frames longer than 50ms. -/
def sampleStep (s : DiagState) (currentTime scrollTop frameTime : ℚ) : DiagState :=
  if s.isScrolling ∧ 0 < frameTime then
    if 50 < frameTime then
      { s with frameMetrics := pushSample s.frameMetrics
                 { timestamp := currentTime, frameTime := frameTime,
                   scrollTop := scrollTop, fps := 1000 / frameTime },
               warnings := s.warnings ++ [PerfWarning.longFrame frameTime] }
    else
      { s with frameMetrics := pushSample s.frameMetrics
                 { timestamp := currentTime, frameTime := frameTime,
                   scrollTop := scrollTop, fps := 1000 / frameTime } }
  else s

/-- The `measureFrame` animation-frame callback. `scrollTop` is the value the
DOM lookup `getScrollTop()` would return, passed as an environment input.
The re-scheduling of the next frame is modelled by the driver `runFrames`. -/
def measureFrame (s : DiagState) (currentTime scrollTop : ℚ) : DiagState :=
  if s.enabled then
    let s3 := sampleStep
      (windowStep
        { s with lastTime := currentTime,
                 frameCountInSecond := s.frameCountInSecond + 1 } currentTime)
      currentTime scrollTop (currentTime - s.lastTime)
    { s3 with frameCount := s3.frameCount + 1 }
  else s

/-- A sequence of animation-frame callbacks, each given the clock reading and
the current scroll offset. -/
def runFrames (s : DiagState) (inputs : List (ℚ × ℚ)) : DiagState :=
  inputs.foldl (fun acc p => measureFrame acc p.1 p.2) s

/-! ## performanceDiagnostics.ts : scroll gesture handlers and reports -/

/-- `onScrollStart()`: set the active flag and clear any pending
end-of-scroll timer. -/
def onScrollStart (s : DiagState) : DiagState :=
  if s.enabled then { s with isScrolling := true, scrollTimeout := none } else s

/-- `onScrollEnd(now)`: clear any pending end-of-scroll timer and start a new
200ms one. The timer callback itself is `fireScrollEndTimer`. -/
def onScrollEnd (s : DiagState) (now : ℚ) : DiagState :=
  if s.enabled then { s with scrollTimeout := some (now + 200) } else s

/-- `Math.max(...xs)` on the nonempty argument lists the source builds
(the sources guard every use by a nonemptiness check; the `[]` value is
never relied upon). -/
def listMax : List ℚ → ℚ
  | [] => 0
  | x :: xs => xs.foldl max x

/-- `Math.min(...xs)` on nonempty argument lists. -/
def listMin : List ℚ → ℚ
  | [] => 0
  | x :: xs => xs.foldl min x

/-- `xs.reduce((a, b) => a + b, 0)`. -/
def listSum (xs : List ℚ) : ℚ := xs.foldl (fun a b => a + b) 0

/-- The data printed by `printScrollReport` (the end-of-gesture report). -/
structure ScrollReportData where
  sampleCount : ℕ
  avgFrameTime : ℚ
  maxFrameTime : ℚ
  avgFps : ℚ
  minFps : ℚ
  cardCount : ℕ
  columnCount : ℕ
deriving DecidableEq, Repr

/-- `printScrollReport()`: if the buffer is empty, return without emitting
anything; otherwise emit the aggregate report and clear the buffer. -/
def printScrollReport (s : DiagState) : DiagState × Option ScrollReportData :=
  if s.frameMetrics.length = 0 then (s, none)
  else
    let frameTimes := s.frameMetrics.map (fun m => m.frameTime)
    let fpsList := s.frameMetrics.map (fun m => m.fps)
    let report : ScrollReportData :=
      { sampleCount := s.frameMetrics.length
        avgFrameTime := listSum frameTimes / (frameTimes.length : ℚ)
        maxFrameTime := listMax frameTimes
        avgFps := listSum fpsList / (fpsList.length : ℚ)
        minFps := listMin fpsList
        cardCount := s.cardCount
        columnCount := s.columnCount }
    ({ s with frameMetrics := [] }, some report)

/-- The callback of the 200ms timer armed by `onScrollEnd`: clear the active
flag and synthesize the end-of-gesture report. `now` is the instant the
timer fires; it only fires if it is still pending with that deadline. -/
def fireScrollEndTimer (s : DiagState) (now : ℚ) : DiagState × Option ScrollReportData :=
  if s.scrollTimeout = some now then
    printScrollReport { s with isScrolling := false, scrollTimeout := none }
  else (s, none)

/-- Events driving the diagnostics controller. -/
inductive DiagEv where
  | frame (t scrollTop : ℚ)
  | scrollStart
  | scrollEnd (now : ℚ)
  | endTimerFire (now : ℚ)

/-- One controller step, accumulating the end-of-gesture reports emitted. -/
def diagStep (p : DiagState × List ScrollReportData) (e : DiagEv) :
    DiagState × List ScrollReportData :=
  match e with
  | DiagEv.frame t st => (measureFrame p.1 t st, p.2)
  | DiagEv.scrollStart => (onScrollStart p.1, p.2)
  | DiagEv.scrollEnd now => (onScrollEnd p.1 now, p.2)
  | DiagEv.endTimerFire now =>
      let r := fireScrollEndTimer p.1 now
      (r.1, p.2 ++ r.2.toList)

/-- Run a sequence of controller events, collecting emitted reports. -/
def runDiag (s : DiagState) (evs : List DiagEv) : DiagState × List ScrollReportData :=
  evs.foldl diagStep (s, [])

/-- The environment globals read by `generateReport` / `logSystemInfo`. -/
structure PerfEnv where
  devicePixelRatio : ℚ
  screenWidth : ℕ
  screenHeight : ℕ
  windowWidth : ℕ
  windowHeight : ℕ
  outerWidth : ℚ
  innerWidth : ℚ
  userAgent : String
deriving DecidableEq, Repr

/-- JS `Math.round` (half away from zero rounds up towards +∞). -/
def jsRound (q : ℚ) : ℤ := ⌊q + 1 / 2⌋

/-- `Math.round((outerWidth / innerWidth) * 100) / 100`. -/
def chromeZoom (env : PerfEnv) : ℚ := (jsRound (env.outerWidth / env.innerWidth * 100) : ℚ) / 100

/-- Interface `PerformanceReport` of the source. -/
structure PerformanceReport where
  devicePixelRatio : ℚ
  screenWidth : ℕ
  screenHeight : ℕ
  windowWidth : ℕ
  windowHeight : ℕ
  chromeZoom : ℚ
  userAgent : String
  avgFps : ℚ
  minFps : ℚ
  maxFps : ℚ
  droppedFrames : ℕ
  totalFrames : ℕ
  avgFrameTime : ℚ
  maxFrameTime : ℚ
  cardCount : ℕ
  columnCount : ℕ
deriving DecidableEq, Repr

/-- `generateReport()`: always returns a full report; the buffer-derived
aggregates fall back to `0` when the buffer is empty (the source's ternary
guards `length > 0 ? ... : 0`). -/
def generateReport (env : PerfEnv) (s : DiagState) : PerformanceReport :=
  let frameTimes := s.frameMetrics.map (fun m => m.frameTime)
  let fpsList := s.frameMetrics.map (fun m => m.fps)
  { devicePixelRatio := env.devicePixelRatio
    screenWidth := env.screenWidth
    screenHeight := env.screenHeight
    windowWidth := env.windowWidth
    windowHeight := env.windowHeight
    chromeZoom := chromeZoom env
    userAgent := env.userAgent
    avgFps := if 0 < fpsList.length then listSum fpsList / (fpsList.length : ℚ) else 0
    minFps := if 0 < fpsList.length then listMin fpsList else 0
    maxFps := if 0 < fpsList.length then listMax fpsList else 0
    droppedFrames := s.droppedFrames
    totalFrames := s.frameCount
    avgFrameTime := if 0 < frameTimes.length then listSum frameTimes / (frameTimes.length : ℚ) else 0
    maxFrameTime := if 0 < frameTimes.length then listMax frameTimes else 0
    cardCount := s.cardCount
    columnCount := s.columnCount }

/-! ## useGlobalScrollState : the scroll-activity singleton -/

/-- Module-level state of the scroll-activity singleton. `scrollTimeout` is
the deadline of the pending 150ms idle timer, `scrollRAF` records whether an
animation-frame request is pending, and the two `...Attached` flags model the
two event-source hookups (`window.addEventListener('scroll', ...)` and
`emitter.on(OVERLAY_SCROLL_BAR_SCROLL, ...)`). `listenerCount` is an integer
because the source decrements it unconditionally. -/
structure ScrollSignalState where
  isScrolling : Bool
  scrollTimeout : Option ℚ
  scrollRAF : Bool
  listenerCount : ℤ
  isListenerAttached : Bool
  windowScrollAttached : Bool
  emitterAttached : Bool
deriving DecidableEq, Repr

/-- The module's initial state. -/
def initSignal : ScrollSignalState :=
  { isScrolling := false, scrollTimeout := none, scrollRAF := false,
    listenerCount := 0, isListenerAttached := false,
    windowScrollAttached := false, emitterAttached := false }

/-- `handleScrollEvent()` at instant `now`: if an animation-frame request is
already pending, return immediately (RAF throttling); otherwise request the
frame and (re)arm the 150ms idle timer. -/
def handleScrollEvent (s : ScrollSignalState) (now : ℚ) : ScrollSignalState :=
  if s.scrollRAF then s
  else { s with scrollRAF := true, scrollTimeout := some (now + 150) }

/-- The animation-frame callback scheduled by `handleScrollEvent`: set the
shared boolean and clear the pending-request flag. It only runs while the
request is pending. -/
def fireScrollRAF (s : ScrollSignalState) : ScrollSignalState :=
  if s.scrollRAF then { s with isScrolling := true, scrollRAF := false } else s

/-- The 150ms idle-timer callback: fires only if a timer with deadline `now`
is still pending, and sets the shared boolean to false. -/
def fireIdleTimer (s : ScrollSignalState) (now : ℚ) : ScrollSignalState :=
  if s.scrollTimeout = some now then
    { s with isScrolling := false, scrollTimeout := none }
  else s

/-- `addScrollListener()`: bump the reference count and attach both event
sources on the first subscription (the attach check reads the flag, which
the increment does not touch). -/
def addScrollListener (s : ScrollSignalState) : ScrollSignalState :=
  if s.isListenerAttached then { s with listenerCount := s.listenerCount + 1 }
  else { s with listenerCount := s.listenerCount + 1, isListenerAttached := true,
                windowScrollAttached := true, emitterAttached := true }

/-- `removeScrollListener()`: decrement the reference count; when the
decremented count reaches zero (or below) with listeners attached, detach
both sources, clamp the count to zero, and cancel the pending idle timer
and frame request. -/
def removeScrollListener (s : ScrollSignalState) : ScrollSignalState :=
  if s.listenerCount - 1 ≤ 0 ∧ s.isListenerAttached then
    { s with listenerCount := 0, isListenerAttached := false,
             windowScrollAttached := false, emitterAttached := false,
             scrollTimeout := none, scrollRAF := false }
  else { s with listenerCount := s.listenerCount - 1 }

/-- Events driving the singleton: subscribe, unsubscribe, a raw scroll event
from either source (delivered only while listeners are attached), the
animation-frame callback, and the idle-timer callback. -/
inductive SigEv where
  | sub
  | unsub
  | scroll (now : ℚ)
  | rafFire
  | idleFire (now : ℚ)

/-- One step of the singleton. A `scroll` event reaches the producer only
while the event sources are attached. -/
def signalStep (s : ScrollSignalState) (e : SigEv) : ScrollSignalState :=
  match e with
  | SigEv.sub => addScrollListener s
  | SigEv.unsub => removeScrollListener s
  | SigEv.scroll now => if s.isListenerAttached then handleScrollEvent s now else s
  | SigEv.rafFire => fireScrollRAF s
  | SigEv.idleFire now => fireIdleTimer s now

/-- Run a sequence of singleton events. -/
def runSignal (s : ScrollSignalState) (evs : List SigEv) : ScrollSignalState :=
  evs.foldl signalStep s

/-- Number of subscribe events in a list. -/
def subCount (evs : List SigEv) : ℕ :=
  evs.countP fun e => match e with | SigEv.sub => true | _ => false

/-- Number of unsubscribe events in a list. -/
def unsubCount (evs : List SigEv) : ℕ :=
  evs.countP fun e => match e with | SigEv.unsub => true | _ => false

/-- Balanced usage started from a reference count `c`: no prefix ever
unsubscribes more than has been subscribed. -/
def BalancedFrom (c : ℤ) (evs : List SigEv) : Prop :=
  ∀ n : ℕ, (unsubCount (evs.take n) : ℤ) ≤ c + (subCount (evs.take n) : ℤ)

/-! ## useDPRPerformanceFix (hook variant with the body scrolling marker) -/

/-- A CSS declaration (property plus value text, `!important` included in
the value as written). -/
structure CSSDecl where
  property : String
  value : String
deriving DecidableEq, Repr

/-- A CSS rule: selector list and declaration block. -/
structure CSSRule where
  selectors : List String
  decls : List CSSDecl
deriving DecidableEq, Repr

/-- The fixed id of the injected stylesheet element. -/
def fixedStyleId : String := "bewly-dpr-perf-fix"

/-- The scrolling marker class toggled on `document.body`. -/
def scrollingClass : String := "bewly-scrolling"

/-- The DPR=1.0 stylesheet variant: under the body scrolling marker, disable
transitions and animations on the card container and all its descendants. -/
def dpr1Rules : List CSSRule :=
  [{ selectors := ["body.bewly-scrolling .video-card-container",
                   "body.bewly-scrolling .video-card-container *"],
     decls := [{ property := "transition", value := "none !important" },
               { property := "animation", value := "none !important" }] }]

/-- The DPR=1.25 lighter stylesheet variant: under the body scrolling marker,
disable transitions on the card container. -/
def lowDPRRules : List CSSRule :=
  [{ selectors := ["body.bewly-scrolling .video-card-container"],
     decls := [{ property := "transition", value := "none !important" }] }]

/-- A `<style>` element: an identity tag (object identity, used by
`Element.remove`), its `id` attribute and its parsed `textContent`. -/
structure StyleEl where
  tag : ℕ
  id : String
  rules : List CSSRule
deriving DecidableEq, Repr

/-- State of the `useDPRPerformanceFix` hook: the cached DPR ref, the
`styleElement` ref, and a freshness counter for element identities. -/
structure DPRFixState where
  currentDPR : ℚ
  styleElement : Option StyleEl
  nextTag : ℕ
deriving DecidableEq, Repr

/-- The relevant slice of `document.head`: the style elements it holds,
in document order. -/
structure DocHead where
  styles : List StyleEl
deriving DecidableEq, Repr

/-- `isLowDPR` (`computed(() => currentDPR.value <= 1.25)`). -/
def isLowDPR (dpr : ℚ) : Bool := dpr ≤ 5 / 4

/-- `isDPR1` (`computed(() => Math.abs(currentDPR.value - 1.0) < 0.01)`). -/
def isDPR1 (dpr : ℚ) : Bool := |dpr - 1| < 1 / 100

/-- The `textContent` the hook assigns for a given DPR (empty on the
no-optimization branch, where the created element is never inserted). -/
def selectRules (dpr : ℚ) : List CSSRule :=
  if isDPR1 dpr then dpr1Rules else if isLowDPR dpr then lowDPRRules else []

/-- `element.remove()`: drop the element (by identity) from the head. -/
def removeEl (h : List StyleEl) (e : StyleEl) : List StyleEl :=
  h.filter fun x => x.tag ≠ e.tag

/-- The removal prologue of `injectOptimizationCSS()`:
`if (styleElement.value) styleElement.value.remove()`. -/
def docAfterRemove (st : DPRFixState) (doc : DocHead) : DocHead :=
  match st.styleElement with
  | some e => { styles := removeEl doc.styles e }
  | none => doc

/-- The freshly created `<style id="bewly-dpr-perf-fix">` element with a
given identity tag and content
(`document.createElement('style'); style.id = 'bewly-dpr-perf-fix'`). -/
def fixedStyleEl (n : ℕ) (rs : List CSSRule) : StyleEl :=
  { tag := n, id := fixedStyleId, rules := rs }

/-- `injectOptimizationCSS()`: remove the previously tracked element (if
any), build a fresh `<style id="bewly-dpr-perf-fix">` whose content depends
on the DPR classification, and append it to the head only if the content is
nonempty. On the empty branch the `styleElement` ref keeps its stale value,
exactly as in the source. -/
def injectOptimizationCSS (st : DPRFixState) (doc : DocHead) : DPRFixState × DocHead :=
  if selectRules st.currentDPR = [] then
    ({ st with nextTag := st.nextTag + 1 }, docAfterRemove st doc)
  else
    ({ st with
        styleElement := some (fixedStyleEl st.nextTag (selectRules st.currentDPR)),
        nextTag := st.nextTag + 1 },
     { styles := (docAfterRemove st doc).styles ++
         [fixedStyleEl st.nextTag (selectRules st.currentDPR)] })

/-- The `handleChange` path (`updateDPR(); injectOptimizationCSS()`), also
covering the initial injection with the mount-time DPR. -/
def handleDPRChange (st : DPRFixState) (doc : DocHead) (d : ℚ) : DPRFixState × DocHead :=
  injectOptimizationCSS { st with currentDPR := d } doc

/-- Run a sequence of DPR readings through the change handler. -/
def runDPR (p : DPRFixState × DocHead) (ds : List ℚ) : DPRFixState × DocHead :=
  ds.foldl (fun q d => handleDPRChange q.1 q.2 d) p

/-- The hook's state before the first injection (no tracked element). -/
def initDPRFix : DPRFixState := { currentDPR := 1, styleElement := none, nextTag := 0 }

/-- The elements of the head carrying the fixed stylesheet id. -/
def stylesWithFixedId (doc : DocHead) : List StyleEl :=
  doc.styles.filter fun e => e.id = fixedStyleId

/-- Whether a rule set contains any compositing-layer-promoting declaration
(the properties the spec's "promote ... to its own compositing layer" refers
to: transforms, will-change, isolation, containment, perspective). -/
def promotesCompositingLayer (rs : List CSSRule) : Bool :=
  rs.any fun r => r.decls.any fun d =>
    d.property = "transform" ∨ d.property = "will-change" ∨
    d.property = "isolation" ∨ d.property = "contain" ∨
    d.property = "perspective" ∨ d.property = "backface-visibility"

/-! ## useScrollingOptimization : the body scrolling marker -/

/-- A single DOM mutation performed by the scrolling watcher. -/
inductive DomMutation where
  | addClass (c : String)
  | removeClass (c : String)
deriving DecidableEq, Repr

/-- The DOM state the watcher can reach: the class list of `document.body`
and, abstractly, the attributes of every other element (keyed by element
identity). -/
structure PageDom where
  bodyClasses : List String
  elemAttrs : List (ℕ × List (String × String))
deriving DecidableEq, Repr

/-- `classList.add`: append the class if not already present. -/
def classListAdd (cs : List String) (c : String) : List String :=
  if c ∈ cs then cs else cs ++ [c]

/-- `classList.remove`: drop every occurrence of the class. -/
def classListRemove (cs : List String) (c : String) : List String :=
  cs.filter fun x => x ≠ c

/-- The mutations the `watch(isScrolling, ...)` handler performs for one
transition of the shared boolean. -/
def scrollWatchMutations (scrolling : Bool) : List DomMutation :=
  if scrolling then [DomMutation.addClass scrollingClass]
  else [DomMutation.removeClass scrollingClass]

/-- Apply one DOM mutation. -/
def applyMutation (dom : PageDom) : DomMutation → PageDom
  | DomMutation.addClass c => { dom with bodyClasses := classListAdd dom.bodyClasses c }
  | DomMutation.removeClass c => { dom with bodyClasses := classListRemove dom.bodyClasses c }

/-- Apply a list of DOM mutations in order. -/
def applyMutations (dom : PageDom) (ms : List DomMutation) : PageDom :=
  ms.foldl applyMutation dom

/-! ## Invariants and concrete test fixtures -/

/-- The resource invariant of the scroll-activity singleton: the count is
never negative, both event sources are attached exactly while the count is
positive, and a detached singleton owns no pending timer or frame request. -/
def SignalInv (s : ScrollSignalState) : Prop :=
  0 ≤ s.listenerCount ∧
  (s.isListenerAttached = true ↔ 0 < s.listenerCount) ∧
  s.windowScrollAttached = s.isListenerAttached ∧
  s.emitterAttached = s.isListenerAttached ∧
  (s.isListenerAttached = false → s.scrollTimeout = none ∧ s.scrollRAF = false)

/-- `N` subscribes, then a burst of scroll events, then `M` unsubscribes. -/
def subThenUnsub (N M : ℕ) (mids : List ℚ) : List SigEv :=
  List.replicate N SigEv.sub ++ mids.map SigEv.scroll ++ List.replicate M SigEv.unsub

/-- Ownership invariant of the DPR hook over the document head: element
identities are fresh and distinct, and any element carrying the fixed
stylesheet id is the one the hook tracks. -/
def DPRInv (st : DPRFixState) (doc : DocHead) : Prop :=
  (∀ e ∈ doc.styles, e.tag < st.nextTag) ∧
  (doc.styles.map fun e => e.tag).Nodup ∧
  (∀ e, st.styleElement = some e → e.tag < st.nextTag) ∧
  (∀ x ∈ doc.styles, x.id = fixedStyleId → st.styleElement = some x)

/-- The C6 scenario: two start/end pairs in rapid succession, followed by
the two instants at which the two armed 200ms timers would fire. -/
def debounceEvs (t1 t3 : ℚ) : List DiagEv :=
  [DiagEv.scrollStart, DiagEv.scrollEnd t1, DiagEv.scrollStart, DiagEv.scrollEnd t3,
   DiagEv.endTimerFire (t1 + 200), DiagEv.endTimerFire (t3 + 200)]

/-- A concrete enabled, scrolling diagnostics state with an empty buffer. -/
def diagState0 : DiagState :=
  { enabled := true, frameMetrics := [], frameCount := 0, droppedFrames := 0,
    isScrolling := true, scrollTimeout := none, cardCount := 5, columnCount := 3,
    lastTime := 0, frameCountInSecond := 0, secondStart := 0, warnings := [] }

/-- A concrete enabled diagnostics state with one buffered sample. -/
def diagState1 : DiagState :=
  { diagState0 with
    frameMetrics := [{ timestamp := 16, frameTime := 16, scrollTop := 0, fps := 1000 / 16 }] }

/-- A concrete idle diagnostics state with an empty buffer but nonzero
lifetime counters. -/
def diagStateEmpty : DiagState :=
  { enabled := true, frameMetrics := [], frameCount := 42, droppedFrames := 3,
    isScrolling := false, scrollTimeout := none, cardCount := 7, columnCount := 2,
    lastTime := 5000, frameCountInSecond := 10, secondStart := 4500, warnings := [] }

/-- A concrete scrolling state one frame before a window boundary, with 24
frames already counted in the current window (so the closing frame measures
a windowed FPS of 25). -/
def diagState25 : DiagState :=
  { diagState0 with frameCountInSecond := 24, lastTime := 980, secondStart := 0 }

/-- A concrete environment snapshot. -/
def env0 : PerfEnv :=
  { devicePixelRatio := 1, screenWidth := 1920, screenHeight := 1080,
    windowWidth := 1600, windowHeight := 900, outerWidth := 1600,
    innerWidth := 1600, userAgent := "UA" }

/-! ## Helper lemmas : the frame sampler -/

theorem pushSample_length_le (m : List FrameMetrics) (x : FrameMetrics)
    (h : m.length ≤ 100) : (pushSample m x).length ≤ 100 := by
  unfold pushSample
  split_ifs with hgt <;> simp_all

theorem pushSample_of_lt (m : List FrameMetrics) (x : FrameMetrics)
    (h : m.length < 100) : pushSample m x = m ++ [x] := by
  unfold pushSample
  rw [if_neg]
  simp
  omega

theorem pushSample_of_full (m : List FrameMetrics) (x : FrameMetrics)
    (h : m.length = 100) : pushSample m x = m.tail ++ [x] := by
  unfold pushSample
  rw [if_pos (by simp [h])]
  cases m with
  | nil => simp at h
  | cons a as => simp

theorem windowStep_frameMetrics (s : DiagState) (t : ℚ) :
    (windowStep s t).frameMetrics = s.frameMetrics := by
  unfold windowStep; split_ifs <;> rfl

theorem windowStep_isScrolling (s : DiagState) (t : ℚ) :
    (windowStep s t).isScrolling = s.isScrolling := by
  unfold windowStep; split_ifs <;> rfl

theorem windowStep_enabled (s : DiagState) (t : ℚ) :
    (windowStep s t).enabled = s.enabled := by
  unfold windowStep; split_ifs <;> rfl

theorem windowStep_lastTime (s : DiagState) (t : ℚ) :
    (windowStep s t).lastTime = s.lastTime := by
  unfold windowStep; split_ifs <;> rfl

theorem windowStep_frameCount (s : DiagState) (t : ℚ) :
    (windowStep s t).frameCount = s.frameCount := by
  unfold windowStep; split_ifs <;> rfl

theorem windowStep_droppedFrames (s : DiagState) (t : ℚ) :
    (windowStep s t).droppedFrames =
      if 1000 ≤ t - s.secondStart ∧ s.isScrolling = true ∧ s.frameCountInSecond < 30
      then s.droppedFrames + 1 else s.droppedFrames := by
  unfold windowStep; split_ifs <;> simp_all

theorem windowStep_warnings (s : DiagState) (t : ℚ) :
    (windowStep s t).warnings =
      if 1000 ≤ t - s.secondStart ∧ s.isScrolling = true ∧ s.frameCountInSecond < 30
      then s.warnings ++ [PerfWarning.droppedFrame s.frameCountInSecond]
      else s.warnings := by
  unfold windowStep; split_ifs <;> simp_all

theorem windowStep_frameCountInSecond (s : DiagState) (t : ℚ) :
    (windowStep s t).frameCountInSecond =
      if 1000 ≤ t - s.secondStart then 0 else s.frameCountInSecond := by
  unfold windowStep; split_ifs <;> simp_all

theorem windowStep_secondStart (s : DiagState) (t : ℚ) :
    (windowStep s t).secondStart =
      if 1000 ≤ t - s.secondStart then t else s.secondStart := by
  unfold windowStep; split_ifs <;> simp_all

theorem sampleStep_frameMetrics (s : DiagState) (t st ft : ℚ) :
    (sampleStep s t st ft).frameMetrics =
      if s.isScrolling = true ∧ 0 < ft
      then pushSample s.frameMetrics
        { timestamp := t, frameTime := ft, scrollTop := st, fps := 1000 / ft }
      else s.frameMetrics := by
  unfold sampleStep; split_ifs <;> simp_all

theorem sampleStep_warnings (s : DiagState) (t st ft : ℚ) :
    (sampleStep s t st ft).warnings =
      if s.isScrolling = true ∧ 0 < ft ∧ 50 < ft
      then s.warnings ++ [PerfWarning.longFrame ft]
      else s.warnings := by
  unfold sampleStep; split_ifs <;> simp_all

theorem sampleStep_droppedFrames (s : DiagState) (t st ft : ℚ) :
    (sampleStep s t st ft).droppedFrames = s.droppedFrames := by
  unfold sampleStep; split_ifs <;> rfl

theorem sampleStep_frameCount (s : DiagState) (t st ft : ℚ) :
    (sampleStep s t st ft).frameCount = s.frameCount := by
  unfold sampleStep; split_ifs <;> rfl

theorem sampleStep_frameCountInSecond (s : DiagState) (t st ft : ℚ) :
    (sampleStep s t st ft).frameCountInSecond = s.frameCountInSecond := by
  unfold sampleStep; split_ifs <;> rfl

theorem sampleStep_secondStart (s : DiagState) (t st ft : ℚ) :
    (sampleStep s t st ft).secondStart = s.secondStart := by
  unfold sampleStep; split_ifs <;> rfl

theorem sampleStep_isScrolling (s : DiagState) (t st ft : ℚ) :
    (sampleStep s t st ft).isScrolling = s.isScrolling := by
  unfold sampleStep; split_ifs <;> rfl

theorem sampleStep_enabled (s : DiagState) (t st ft : ℚ) :
    (sampleStep s t st ft).enabled = s.enabled := by
  unfold sampleStep; split_ifs <;> rfl

theorem measureFrame_frameMetrics (s : DiagState) (t st : ℚ) :
    (measureFrame s t st).frameMetrics =
      if s.enabled = true ∧ s.isScrolling = true ∧ 0 < t - s.lastTime
      then pushSample s.frameMetrics
        { timestamp := t, frameTime := t - s.lastTime, scrollTop := st,
          fps := 1000 / (t - s.lastTime) }
      else s.frameMetrics := by
  unfold measureFrame
  by_cases he : s.enabled = true
  · simp only [he, if_true, sampleStep_frameMetrics, windowStep_frameMetrics,
      windowStep_isScrolling, true_and]
  · simp [he]

theorem measureFrame_frameCount (s : DiagState) (t st : ℚ) (he : s.enabled = true) :
    (measureFrame s t st).frameCount = s.frameCount + 1 := by
  unfold measureFrame
  simp only [he, if_true, sampleStep_frameCount, windowStep_frameCount]

theorem measureFrame_droppedFrames (s : DiagState) (t st : ℚ) (he : s.enabled = true) :
    (measureFrame s t st).droppedFrames =
      if 1000 ≤ t - s.secondStart ∧ s.isScrolling = true ∧ s.frameCountInSecond + 1 < 30
      then s.droppedFrames + 1 else s.droppedFrames := by
  unfold measureFrame
  simp only [he, if_true, sampleStep_droppedFrames, windowStep_droppedFrames]

theorem measureFrame_frameCountInSecond (s : DiagState) (t st : ℚ) (he : s.enabled = true) :
    (measureFrame s t st).frameCountInSecond =
      if 1000 ≤ t - s.secondStart then 0 else s.frameCountInSecond + 1 := by
  unfold measureFrame
  simp only [he, if_true, sampleStep_frameCountInSecond, windowStep_frameCountInSecond]

theorem measureFrame_secondStart (s : DiagState) (t st : ℚ) (he : s.enabled = true) :
    (measureFrame s t st).secondStart =
      if 1000 ≤ t - s.secondStart then t else s.secondStart := by
  unfold measureFrame
  simp only [he, if_true, sampleStep_secondStart, windowStep_secondStart]

theorem measureFrame_dropped_warning (s : DiagState) (t st : ℚ) (he : s.enabled = true)
    (hw : 1000 ≤ t - s.secondStart) (hs : s.isScrolling = true)
    (hf : s.frameCountInSecond + 1 < 30) :
    PerfWarning.droppedFrame (s.frameCountInSecond + 1) ∈ (measureFrame s t st).warnings := by
  unfold measureFrame
  simp only [he, if_true, sampleStep_warnings, windowStep_isScrolling, windowStep_warnings]
  split_ifs <;> simp_all

/-! ## Claims about the frame sampler -/

/-- C1: over any sequence of animation-frame callbacks, the `frameMetrics`
buffer never grows beyond 100 entries, and when a sample is appended to a
full buffer the oldest entry (the head) is the one evicted (FIFO). -/
theorem frameMetrics_capacity_fifo (s : DiagState) (inputs : List (ℚ × ℚ))
    (h : s.frameMetrics.length ≤ 100) :
    (runFrames s inputs).frameMetrics.length ≤ 100 ∧
    (∀ t st : ℚ, s.frameMetrics.length = 100 → s.enabled = true →
      s.isScrolling = true → s.lastTime < t →
      (measureFrame s t st).frameMetrics =
        s.frameMetrics.tail ++
          [{ timestamp := t, frameTime := t - s.lastTime, scrollTop := st,
             fps := 1000 / (t - s.lastTime) }]) := by
  constructor
  · induction inputs generalizing s with
    | nil => simpa [runFrames] using h
    | cons p rest ih =>
        have hstep : (measureFrame s p.1 p.2).frameMetrics.length ≤ 100 := by
          rw [measureFrame_frameMetrics]
          split_ifs with hc
          · exact pushSample_length_le _ _ h
          · exact h
        have hrw : runFrames s (p :: rest) = runFrames (measureFrame s p.1 p.2) rest := rfl
        rw [hrw]
        exact ih _ hstep
  · intro t st h100 he hs hlt
    rw [measureFrame_frameMetrics, if_pos ⟨he, hs, by linarith⟩]
    exact pushSample_of_full _ _ h100

/-- Witness for C1 at a concrete state and frame sequence. -/
theorem frameMetrics_capacity_fifo_witness :
    diagState0.frameMetrics.length ≤ 100 ∧
    (runFrames diagState0 [(16, 0), (32, 10)]).frameMetrics.length ≤ 100 :=
  ⟨by decide, (frameMetrics_capacity_fifo diagState0 [(16, 0), (32, 10)] (by decide)).1⟩

/-- C4: on a frame that closes a one-second window, the lifetime
dropped-frame counter is incremented by exactly 1 and a dropped-frame
warning emitted when the windowed FPS is below 30 while a scroll gesture is
active; otherwise (windowed FPS at least 30, or not scrolling, or not at a
window boundary) the counter is unchanged. The windowed FPS of the closing
frame is `frameCountInSecond + 1`, the window's frame count. -/
theorem droppedFrames_window_rule (s : DiagState) (t st : ℚ) (he : s.enabled = true) :
    (1000 ≤ t - s.secondStart →
      ((s.isScrolling = true ∧ s.frameCountInSecond + 1 < 30) →
        (measureFrame s t st).droppedFrames = s.droppedFrames + 1 ∧
        PerfWarning.droppedFrame (s.frameCountInSecond + 1) ∈ (measureFrame s t st).warnings) ∧
      ((s.isScrolling = false ∨ 30 ≤ s.frameCountInSecond + 1) →
        (measureFrame s t st).droppedFrames = s.droppedFrames)) ∧
    (t - s.secondStart < 1000 →
      (measureFrame s t st).droppedFrames = s.droppedFrames) := by
  refine ⟨fun hw => ⟨fun hcond => ?_, fun hnot => ?_⟩, fun hlt => ?_⟩
  · refine ⟨?_, measureFrame_dropped_warning s t st he hw hcond.1 hcond.2⟩
    rw [measureFrame_droppedFrames s t st he, if_pos ⟨hw, hcond.1, hcond.2⟩]
  · rw [measureFrame_droppedFrames s t st he, if_neg]
    rintro ⟨-, hsc, hfps⟩
    rcases hnot with hs | hge
    · rw [hsc] at hs; exact Bool.noConfusion hs
    · omega
  · rw [measureFrame_droppedFrames s t st he, if_neg]
    rintro ⟨hge, -, -⟩
    linarith

/-- Witness for C4: a window closing at FPS 25 during a scroll gesture. -/
theorem droppedFrames_window_rule_witness :
    diagState25.enabled = true ∧
    (1000 : ℚ) ≤ 1000 - diagState25.secondStart ∧
    (diagState25.isScrolling = true ∧ diagState25.frameCountInSecond + 1 < 30) ∧
    (measureFrame diagState25 1000 0).droppedFrames = diagState25.droppedFrames + 1 :=
  ⟨by decide, by norm_num [diagState25, diagState0], ⟨by decide, by decide⟩,
    (((droppedFrames_window_rule diagState25 1000 0 (by decide)).1
      (by norm_num [diagState25, diagState0])) |>.1 ⟨by decide, by decide⟩).1⟩

/-- C5: while enabled, a sample is recorded exactly when a scroll gesture is
active and the frame delta is strictly positive; with a zero or negative
delta (or no gesture) the buffer is untouched, but the lifetime frame
counter still increments and the per-second window logic still advances. -/
theorem sample_recording_rule (s : DiagState) (t st : ℚ) (he : s.enabled = true) :
    ((s.isScrolling = true ∧ 0 < t - s.lastTime) →
      (measureFrame s t st).frameMetrics = pushSample s.frameMetrics
        { timestamp := t, frameTime := t - s.lastTime, scrollTop := st,
          fps := 1000 / (t - s.lastTime) }) ∧
    (¬(s.isScrolling = true ∧ 0 < t - s.lastTime) →
      (measureFrame s t st).frameMetrics = s.frameMetrics) ∧
    (measureFrame s t st).frameCount = s.frameCount + 1 ∧
    (1000 ≤ t - s.secondStart →
      (measureFrame s t st).frameCountInSecond = 0 ∧
      (measureFrame s t st).secondStart = t) ∧
    (t - s.secondStart < 1000 →
      (measureFrame s t st).frameCountInSecond = s.frameCountInSecond + 1 ∧
      (measureFrame s t st).secondStart = s.secondStart) := by
  refine ⟨fun hc => ?_, fun hc => ?_, measureFrame_frameCount s t st he,
    fun hw => ⟨?_, ?_⟩, fun hw => ⟨?_, ?_⟩⟩
  · rw [measureFrame_frameMetrics, if_pos ⟨he, hc.1, hc.2⟩]
  · rw [measureFrame_frameMetrics, if_neg]
    rintro ⟨-, hs, hp⟩
    exact hc ⟨hs, hp⟩
  · rw [measureFrame_frameCountInSecond s t st he, if_pos hw]
  · rw [measureFrame_secondStart s t st he, if_pos hw]
  · rw [measureFrame_frameCountInSecond s t st he, if_neg (by linarith)]
  · rw [measureFrame_secondStart s t st he, if_neg (by linarith)]

/-- Witness for C5: a clock anomaly (non-increasing timestamp) while
scrolling records no sample but still counts the frame. -/
theorem sample_recording_rule_witness :
    diagStateEmpty.enabled = true ∧
    (¬(diagStateEmpty.isScrolling = true ∧ (0 : ℚ) < 4000 - diagStateEmpty.lastTime) →
      (measureFrame diagStateEmpty 4000 0).frameMetrics = diagStateEmpty.frameMetrics) ∧
    (measureFrame diagStateEmpty 4000 0).frameCount = diagStateEmpty.frameCount + 1 :=
  ⟨by decide,
   (sample_recording_rule diagStateEmpty 4000 0 (by decide)).2.1,
   (sample_recording_rule diagStateEmpty 4000 0 (by decide)).2.2.1⟩

/-- C6: while enabled, running start/end twice in rapid succession (the
second end re-arming the debounce timer before the first one's deadline, so
only the second deadline fires) produces exactly one end-of-gesture report;
the firing timer clears the active flag and the buffer, and `onScrollEnd`
(re)starts a 200ms timer. -/
theorem scrollEnd_debounce_single_report (s : DiagState) (t1 t3 : ℚ)
    (he : s.enabled = true) (hm : s.frameMetrics ≠ []) (h13 : t1 < t3)
    (_hwin : t3 < t1 + 200) :
    (runDiag s (debounceEvs t1 t3)).2.length = 1 ∧
    (runDiag s (debounceEvs t1 t3)).1.isScrolling = false ∧
    (runDiag s (debounceEvs t1 t3)).1.frameMetrics = [] ∧
    (runDiag s (debounceEvs t1 t3)).1.scrollTimeout = none ∧
    (onScrollEnd s t1).scrollTimeout = some (t1 + 200) := by
  have hne : ¬(t3 + 200 = t1 + 200) := fun hc => absurd h13 (by rw [show t1 = t3 by linarith]; exact lt_irrefl t3)
  have hlen : ¬(s.frameMetrics.length = 0) := by
    simpa [List.length_eq_zero] using hm
  simp [runDiag, debounceEvs, diagStep, onScrollStart, onScrollEnd,
        fireScrollEndTimer, printScrollReport, he, hne, hlen]

/-- Witness for C6 at a concrete state and timing. -/
theorem scrollEnd_debounce_single_report_witness :
    diagState1.enabled = true ∧ diagState1.frameMetrics ≠ [] ∧
    (0 : ℚ) < 50 ∧ (50 : ℚ) < 0 + 200 ∧
    (runDiag diagState1 (debounceEvs 0 50)).2.length = 1 :=
  ⟨by decide, by decide, by norm_num, by norm_num,
    (scrollEnd_debounce_single_report diagState1 0 50 (by decide) (by decide)
      (by norm_num) (by norm_num)).1⟩

/-- C9 counterexample: with an empty buffer, the end-of-gesture path indeed
emits nothing, but on-demand `generateReport` still produces a full report
(with zeroed aggregates), refuting the claim that report generation
"produces no report" on the on-demand path as well. -/
theorem generateReport_produces_report_on_empty :
    (printScrollReport diagStateEmpty).2 = none ∧
    chromeZoom env0 = 1 ∧
    generateReport env0 diagStateEmpty =
      { devicePixelRatio := 1, screenWidth := 1920, screenHeight := 1080,
        windowWidth := 1600, windowHeight := 900, chromeZoom := chromeZoom env0,
        userAgent := "UA", avgFps := 0, minFps := 0, maxFps := 0,
        droppedFrames := 3, totalFrames := 42, avgFrameTime := 0,
        maxFrameTime := 0, cardCount := 7, columnCount := 2 } := by
  refine ⟨rfl, ?_, by rfl⟩
  norm_num [chromeZoom, jsRound, env0]

/-- C9 (amended): with an empty buffer at computation time, the
end-of-gesture report path returns silently — no report, no state change,
no error — while on-demand `generateReport` still produces a report, whose
buffer-derived aggregates are all zero. -/
theorem empty_buffer_report_behavior (env : PerfEnv) (s : DiagState)
    (h : s.frameMetrics = []) :
    printScrollReport s = (s, none) ∧
    (generateReport env s).avgFps = 0 ∧
    (generateReport env s).maxFrameTime = 0 ∧
    (generateReport env s).droppedFrames = s.droppedFrames := by
  refine ⟨?_, ?_, ?_, ?_⟩ <;> simp [printScrollReport, generateReport, h]

/-- Witness for the amended C9 at a concrete state. -/
theorem empty_buffer_report_behavior_witness :
    diagStateEmpty.frameMetrics = [] ∧
    printScrollReport diagStateEmpty = (diagStateEmpty, none) :=
  ⟨rfl, (empty_buffer_report_behavior env0 diagStateEmpty rfl).1⟩

/-- C10: `generateReport` on an empty buffer yields exactly-zero aggregate
fields while the environment and lifetime fields carry their current
values; it is total (never throws, no NaN or infinity in the embedding). -/
theorem generateReport_empty_defaults (env : PerfEnv) (s : DiagState)
    (h : s.frameMetrics = []) :
    generateReport env s =
      { devicePixelRatio := env.devicePixelRatio, screenWidth := env.screenWidth,
        screenHeight := env.screenHeight, windowWidth := env.windowWidth,
        windowHeight := env.windowHeight, chromeZoom := chromeZoom env,
        userAgent := env.userAgent, avgFps := 0, minFps := 0, maxFps := 0,
        droppedFrames := s.droppedFrames, totalFrames := s.frameCount,
        avgFrameTime := 0, maxFrameTime := 0, cardCount := s.cardCount,
        columnCount := s.columnCount } := by
  simp [generateReport, h]

/-- Witness for C10 at a concrete state and environment. -/
theorem generateReport_empty_defaults_witness :
    diagStateEmpty.frameMetrics = [] ∧
    generateReport env0 diagStateEmpty =
      { devicePixelRatio := env0.devicePixelRatio, screenWidth := env0.screenWidth,
        screenHeight := env0.screenHeight, windowWidth := env0.windowWidth,
        windowHeight := env0.windowHeight, chromeZoom := chromeZoom env0,
        userAgent := env0.userAgent, avgFps := 0, minFps := 0, maxFps := 0,
        droppedFrames := diagStateEmpty.droppedFrames,
        totalFrames := diagStateEmpty.frameCount,
        avgFrameTime := 0, maxFrameTime := 0,
        cardCount := diagStateEmpty.cardCount,
        columnCount := diagStateEmpty.columnCount } :=
  ⟨rfl, generateReport_empty_defaults env0 diagStateEmpty rfl⟩

/-! ## Claims about the scroll-activity singleton -/

/-- C3 counterexample: a second scroll event arriving while the
animation-frame request of the first is still pending is dropped by the
early return, so it does NOT reset the 150ms idle timer — the deadline
stays at the first event's `0 + 150`, not the second event's `100 + 150`. -/
theorem idle_timer_not_reset_when_raf_pending :
    (handleScrollEvent (handleScrollEvent initSignal 0) 100).scrollTimeout = some 150 ∧
    (handleScrollEvent (handleScrollEvent initSignal 0) 100).scrollTimeout ≠
      some (100 + 150) := by
  constructor <;> norm_num [handleScrollEvent, initSignal]

/-- C3 (amended): a scroll event arriving while no animation-frame request
is pending schedules one and (re)arms the 150ms idle timer; an event
arriving while a request is pending is coalesced — it leaves the whole
state, the pending request and the idle deadline included, unchanged. After
any event a request is pending, so the boolean-true update is scheduled at
most once per frame; the frame callback sets the boolean and re-enables
scheduling; the idle timer sets the boolean to false exactly when it fires
at its currently-set deadline, and fires at no other instant. -/
theorem scroll_producer_semantics (s : ScrollSignalState) (now d : ℚ) :
    (s.scrollRAF = false →
      handleScrollEvent s now =
        { s with scrollRAF := true, scrollTimeout := some (now + 150) }) ∧
    (s.scrollRAF = true → handleScrollEvent s now = s) ∧
    (handleScrollEvent s now).scrollRAF = true ∧
    fireScrollRAF (handleScrollEvent s now) =
      { handleScrollEvent s now with isScrolling := true, scrollRAF := false } ∧
    (s.scrollTimeout = some d →
      fireIdleTimer s d = { s with isScrolling := false, scrollTimeout := none }) ∧
    (s.scrollTimeout ≠ some d → fireIdleTimer s d = s) := by
  refine ⟨fun h => ?_, fun h => ?_, ?_, ?_, fun h => ?_, fun h => ?_⟩
  · simp [handleScrollEvent, h]
  · simp [handleScrollEvent, h]
  · by_cases h : s.scrollRAF = true <;> simp [handleScrollEvent, h]
  · by_cases h : s.scrollRAF = true <;> simp [handleScrollEvent, fireScrollRAF, h]
  · simp [fireIdleTimer, h]
  · simp [fireIdleTimer, h]

/-- Witness for the amended C3 at the initial state. -/
theorem scroll_producer_semantics_witness :
    initSignal.scrollRAF = false ∧
    handleScrollEvent initSignal 0 =
      { initSignal with scrollRAF := true, scrollTimeout := some ((0 : ℚ) + 150) } :=
  ⟨rfl, (scroll_producer_semantics initSignal 0 0).1 rfl⟩

theorem signalInv_init : SignalInv initSignal := by
  refine ⟨le_refl 0, ?_, rfl, rfl, fun _ => ⟨rfl, rfl⟩⟩
  simp [initSignal]

theorem subCount_nil : subCount [] = 0 := rfl

theorem unsubCount_nil : unsubCount [] = 0 := rfl

theorem subCount_cons (e : SigEv) (l : List SigEv) :
    subCount (e :: l) =
      subCount l + (match e with | SigEv.sub => 1 | _ => 0) := by
  cases e <;> simp [subCount, List.countP_cons]

theorem unsubCount_cons (e : SigEv) (l : List SigEv) :
    unsubCount (e :: l) =
      unsubCount l + (match e with | SigEv.unsub => 1 | _ => 0) := by
  cases e <;> simp [unsubCount, List.countP_cons]

theorem addScrollListener_count (s : ScrollSignalState) :
    (addScrollListener s).listenerCount = s.listenerCount + 1 := by
  unfold addScrollListener
  by_cases ha : s.isListenerAttached = true <;> simp [ha]

theorem addScrollListener_inv (s : ScrollSignalState) (h : SignalInv s) :
    SignalInv (addScrollListener s) := by
  obtain ⟨h0, h1, h2, h3, h4⟩ := h
  unfold addScrollListener SignalInv
  split_ifs with ha <;> dsimp only
  · exact ⟨by omega, ⟨fun _ => by have := h1.mp ha; omega, fun _ => ha⟩,
      h2, h3, fun hf => h4 hf⟩
  · exact ⟨by omega, ⟨fun _ => by omega, fun _ => rfl⟩, rfl, rfl,
      fun hf => nomatch hf⟩

theorem removeScrollListener_inv (s : ScrollSignalState) (h : SignalInv s)
    (hc : 0 < s.listenerCount) :
    SignalInv (removeScrollListener s) ∧
    (removeScrollListener s).listenerCount = s.listenerCount - 1 := by
  obtain ⟨h0, h1, h2, h3, h4⟩ := h
  have ha : s.isListenerAttached = true := h1.mpr hc
  unfold removeScrollListener SignalInv
  split_ifs with hcond <;> dsimp only
  · have hc1 : s.listenerCount = 1 := by
      have := hcond.1
      omega
    exact ⟨⟨le_refl 0, ⟨fun hf => False.elim hf, fun hz => absurd hz (by omega)⟩,
      rfl, rfl, fun _ => ⟨rfl, rfl⟩⟩, by omega⟩
  · have hgt : ¬(s.listenerCount - 1 ≤ 0) := fun hz => hcond ⟨hz, ha⟩
    exact ⟨⟨by omega, ⟨fun _ => by omega, fun _ => ha⟩, h2, h3,
      fun hf => h4 hf⟩, rfl⟩

theorem signalStep_scroll_inv (s : ScrollSignalState) (h : SignalInv s) (t : ℚ) :
    SignalInv (signalStep s (SigEv.scroll t)) := by
  obtain ⟨h0, h1, h2, h3, h4⟩ := h
  unfold signalStep handleScrollEvent
  split_ifs with ha hr
  · exact ⟨h0, h1, h2, h3, h4⟩
  · exact ⟨h0, h1, h2, h3, fun hf => nomatch ha.symm.trans hf⟩
  · exact ⟨h0, h1, h2, h3, h4⟩

theorem signalStep_scroll_fields (s : ScrollSignalState) (t : ℚ) :
    (signalStep s (SigEv.scroll t)).listenerCount = s.listenerCount ∧
    (signalStep s (SigEv.scroll t)).isListenerAttached = s.isListenerAttached ∧
    (signalStep s (SigEv.scroll t)).windowScrollAttached = s.windowScrollAttached ∧
    (signalStep s (SigEv.scroll t)).emitterAttached = s.emitterAttached := by
  unfold signalStep handleScrollEvent
  split_ifs <;> exact ⟨rfl, rfl, rfl, rfl⟩

theorem fireScrollRAF_inv (s : ScrollSignalState) (h : SignalInv s) :
    SignalInv (fireScrollRAF s) ∧ (fireScrollRAF s).listenerCount = s.listenerCount := by
  obtain ⟨h0, h1, h2, h3, h4⟩ := h
  unfold fireScrollRAF
  split_ifs with hr
  · exact ⟨⟨h0, h1, h2, h3, fun hf => ⟨(h4 hf).1, rfl⟩⟩, rfl⟩
  · exact ⟨⟨h0, h1, h2, h3, h4⟩, rfl⟩

theorem fireIdleTimer_inv (s : ScrollSignalState) (h : SignalInv s) (t : ℚ) :
    SignalInv (fireIdleTimer s t) ∧ (fireIdleTimer s t).listenerCount = s.listenerCount := by
  obtain ⟨h0, h1, h2, h3, h4⟩ := h
  unfold fireIdleTimer
  split_ifs with hp
  · exact ⟨⟨h0, h1, h2, h3, fun hf => ⟨rfl, (h4 hf).2⟩⟩, rfl⟩
  · exact ⟨⟨h0, h1, h2, h3, h4⟩, rfl⟩

theorem signalStep_inv_count (s : ScrollSignalState) (h : SignalInv s) :
    ∀ e : SigEv,
      (e = SigEv.unsub → 0 < s.listenerCount) →
      SignalInv (signalStep s e) ∧
      (signalStep s e).listenerCount =
        s.listenerCount + (subCount [e] : ℤ) - (unsubCount [e] : ℤ) := by
  intro e hu
  cases e with
  | sub =>
      refine ⟨addScrollListener_inv s h, ?_⟩
      show (addScrollListener s).listenerCount = _
      rw [addScrollListener_count]
      simp [subCount_cons, subCount_nil, unsubCount_cons, unsubCount_nil]
  | unsub =>
      obtain ⟨hi, hc⟩ := removeScrollListener_inv s h (hu rfl)
      refine ⟨hi, ?_⟩
      show (removeScrollListener s).listenerCount = _
      rw [hc]
      simp [subCount_cons, subCount_nil, unsubCount_cons, unsubCount_nil]
  | scroll t =>
      refine ⟨signalStep_scroll_inv s h t, ?_⟩
      rw [(signalStep_scroll_fields s t).1]
      simp [subCount_cons, subCount_nil, unsubCount_cons, unsubCount_nil]
  | rafFire =>
      obtain ⟨hi, hc⟩ := fireScrollRAF_inv s h
      refine ⟨hi, ?_⟩
      show (fireScrollRAF s).listenerCount = _
      rw [hc]
      simp [subCount_cons, subCount_nil, unsubCount_cons, unsubCount_nil]
  | idleFire t =>
      obtain ⟨hi, hc⟩ := fireIdleTimer_inv s h t
      refine ⟨hi, ?_⟩
      show (fireIdleTimer s t).listenerCount = _
      rw [hc]
      simp [subCount_cons, subCount_nil, unsubCount_cons, unsubCount_nil]

theorem runSignal_inv (evs : List SigEv) :
    ∀ s : ScrollSignalState, SignalInv s → BalancedFrom s.listenerCount evs →
      SignalInv (runSignal s evs) ∧
      (runSignal s evs).listenerCount =
        s.listenerCount + (subCount evs : ℤ) - (unsubCount evs : ℤ) := by
  induction evs with
  | nil =>
      intro s h _
      refine ⟨h, ?_⟩
      simp [runSignal, subCount, unsubCount]
  | cons e rest ih =>
      intro s h hb
      have hu : e = SigEv.unsub → 0 < s.listenerCount := by
        intro he
        have h1 := hb 1
        rw [he] at h1
        simp [List.take_succ_cons, subCount, unsubCount, List.countP_cons] at h1
        omega
      obtain ⟨hi, hc⟩ := signalStep_inv_count s h e hu
      have hb2 : BalancedFrom (signalStep s e).listenerCount rest := by
        intro n
        have hn := hb (n + 1)
        rw [List.take_succ_cons] at hn
        rw [hc]
        cases e <;>
          simp [subCount, unsubCount, List.countP_cons] at hn ⊢ <;> omega
      have hrw : runSignal s (e :: rest) = runSignal (signalStep s e) rest := rfl
      rw [hrw]
      obtain ⟨hi2, hc2⟩ := ih (signalStep s e) hi hb2
      refine ⟨hi2, ?_⟩
      rw [hc2, hc]
      cases e <;> simp [subCount, unsubCount, List.countP_cons] <;> omega

theorem runSignal_append (s : ScrollSignalState) (a b : List SigEv) :
    runSignal s (a ++ b) = runSignal (runSignal s a) b := by
  simp [runSignal, List.foldl_append]

theorem runSignal_replicate_sub (N : ℕ) :
    ∀ s : ScrollSignalState, SignalInv s →
      SignalInv (runSignal s (List.replicate N SigEv.sub)) ∧
      (runSignal s (List.replicate N SigEv.sub)).listenerCount =
        s.listenerCount + N := by
  induction N with
  | zero => intro s h; refine ⟨h, ?_⟩; simp [runSignal]
  | succ n ih =>
      intro s h
      have hrw : runSignal s (List.replicate (n + 1) SigEv.sub) =
          runSignal (addScrollListener s) (List.replicate n SigEv.sub) := rfl
      rw [hrw]
      obtain ⟨hi, hc⟩ := ih (addScrollListener s) (addScrollListener_inv s h)
      refine ⟨hi, ?_⟩
      rw [hc, addScrollListener_count]
      push_cast
      ring

theorem runSignal_scrolls (ts : List ℚ) :
    ∀ s : ScrollSignalState, SignalInv s →
      SignalInv (runSignal s (ts.map SigEv.scroll)) ∧
      (runSignal s (ts.map SigEv.scroll)).listenerCount = s.listenerCount := by
  induction ts with
  | nil => intro s h; exact ⟨h, by simp [runSignal]⟩
  | cons t rest ih =>
      intro s h
      have hrw : runSignal s ((t :: rest).map SigEv.scroll) =
          runSignal (signalStep s (SigEv.scroll t)) (rest.map SigEv.scroll) := rfl
      rw [hrw]
      obtain ⟨hi, hc⟩ := ih (signalStep s (SigEv.scroll t)) (signalStep_scroll_inv s h t)
      exact ⟨hi, by rw [hc, (signalStep_scroll_fields s t).1]⟩

theorem runSignal_replicate_unsub (N : ℕ) :
    ∀ s : ScrollSignalState, SignalInv s → (N : ℤ) ≤ s.listenerCount →
      SignalInv (runSignal s (List.replicate N SigEv.unsub)) ∧
      (runSignal s (List.replicate N SigEv.unsub)).listenerCount =
        s.listenerCount - N := by
  induction N with
  | zero => intro s h _; refine ⟨h, ?_⟩; simp [runSignal]
  | succ n ih =>
      intro s h hn
      have hc0 : 0 < s.listenerCount := by push_cast at hn; omega
      obtain ⟨hi, hc⟩ := removeScrollListener_inv s h hc0
      have hrw : runSignal s (List.replicate (n + 1) SigEv.unsub) =
          runSignal (removeScrollListener s) (List.replicate n SigEv.unsub) := rfl
      rw [hrw]
      obtain ⟨hi2, hc2⟩ := ih (removeScrollListener s) hi (by rw [hc]; push_cast at hn ⊢; omega)
      refine ⟨hi2, ?_⟩
      rw [hc2, hc]
      push_cast
      ring

/-- C2: N subscribes (with any burst of scroll events in between) followed
by N unsubscribes detach both event-source listeners and cancel the pending
idle timer and frame request; after only N-1 unsubscribes the listeners
remain attached; and under any balanced usage the listeners are attached
if and only if the reference count is positive. -/
theorem scroll_listener_refcount (N : ℕ) (mids : List ℚ) (hN : 0 < N) :
    (runSignal initSignal (subThenUnsub N N mids)).isListenerAttached = false ∧
    (runSignal initSignal (subThenUnsub N N mids)).windowScrollAttached = false ∧
    (runSignal initSignal (subThenUnsub N N mids)).emitterAttached = false ∧
    (runSignal initSignal (subThenUnsub N N mids)).scrollTimeout = none ∧
    (runSignal initSignal (subThenUnsub N N mids)).scrollRAF = false ∧
    (runSignal initSignal (subThenUnsub N N mids)).listenerCount = 0 ∧
    (runSignal initSignal (subThenUnsub N (N - 1) mids)).isListenerAttached = true ∧
    (∀ evs : List SigEv, BalancedFrom 0 evs →
      ((runSignal initSignal evs).isListenerAttached = true ↔
        0 < (runSignal initSignal evs).listenerCount)) := by
  have haux : ∀ M : ℕ, (M : ℤ) ≤ (N : ℤ) →
      SignalInv (runSignal initSignal (subThenUnsub N M mids)) ∧
      (runSignal initSignal (subThenUnsub N M mids)).listenerCount =
        (N : ℤ) - (M : ℤ) := by
    intro M hM
    obtain ⟨hi1, hc1⟩ := runSignal_replicate_sub N initSignal signalInv_init
    obtain ⟨hi2, hc2⟩ := runSignal_scrolls mids _ hi1
    have hcount2 : (runSignal (runSignal initSignal (List.replicate N SigEv.sub))
        (mids.map SigEv.scroll)).listenerCount = (N : ℤ) := by
      rw [hc2, hc1]
      simp [initSignal]
    obtain ⟨hi3, hc3⟩ := runSignal_replicate_unsub M _ hi2 (by rw [hcount2]; exact hM)
    rw [subThenUnsub, runSignal_append, runSignal_append]
    exact ⟨hi3, by rw [hc3, hcount2]⟩
  obtain ⟨⟨g0, g1, g2, g3, g4⟩, gc⟩ := haux N (le_refl _)
  have hcz : (runSignal initSignal (subThenUnsub N N mids)).listenerCount = 0 := by
    rw [gc]; ring
  have hdet : (runSignal initSignal (subThenUnsub N N mids)).isListenerAttached = false := by
    rcases Bool.eq_false_or_eq_true
      ((runSignal initSignal (subThenUnsub N N mids)).isListenerAttached) with hb | hb
    · exfalso
      have := g1.mp hb
      omega
    · exact hb
  obtain ⟨g5, g6⟩ := g4 hdet
  obtain ⟨⟨k0, k1, k2, k3, k4⟩, kc⟩ := haux (N - 1) (by omega)
  have hatt : (runSignal initSignal (subThenUnsub N (N - 1) mids)).isListenerAttached = true := by
    apply k1.mpr
    rw [kc]
    omega
  refine ⟨hdet, by rw [g2, hdet], by rw [g3, hdet], g5, g6, hcz, hatt, ?_⟩
  intro evs hb
  obtain ⟨⟨j0, j1, j2, j3, j4⟩, jc⟩ :=
    runSignal_inv evs initSignal signalInv_init (by simpa [initSignal] using hb)
  exact j1

/-- Witness for C2 with two subscribers and one scroll event in between. -/
theorem scroll_listener_refcount_witness :
    0 < 2 ∧
    (runSignal initSignal (subThenUnsub 2 2 [10])).isListenerAttached = false ∧
    (runSignal initSignal (subThenUnsub 2 1 [10])).isListenerAttached = true :=
  ⟨by decide, (scroll_listener_refcount 2 [10] (by decide)).1,
    (scroll_listener_refcount 2 [10] (by decide)).2.2.2.2.2.2.1⟩

/-! ## Claims about the DPR optimization controller -/

theorem DPRInv_init : DPRInv initDPRFix { styles := [] } := by
  refine ⟨?_, ?_, ?_, ?_⟩
  · intro e he; cases he
  · simp
  · intro e he; cases he
  · intro x hx; cases hx

theorem DPRInv_setDPR (st : DPRFixState) (doc : DocHead) (d : ℚ)
    (h : DPRInv st doc) : DPRInv { st with currentDPR := d } doc := h

theorem docAfterRemove_styles_sublist (st : DPRFixState) (doc : DocHead) :
    List.Sublist (docAfterRemove st doc).styles doc.styles := by
  unfold docAfterRemove
  cases st.styleElement with
  | none => exact List.Sublist.refl _
  | some e => exact List.filter_sublist _

theorem docAfterRemove_no_fixed (st : DPRFixState) (doc : DocHead)
    (h : DPRInv st doc) :
    ∀ x ∈ (docAfterRemove st doc).styles, ¬(x.id = fixedStyleId) := by
  obtain ⟨h1, h2, h3, h4⟩ := h
  unfold docAfterRemove
  cases hse : st.styleElement with
  | none =>
      intro x hx hid
      have hc := h4 x hx hid
      rw [hse] at hc
      cases hc
  | some e =>
      intro x hx hid
      obtain ⟨hxm, hxp⟩ := List.mem_filter.mp hx
      have hxe := h4 x hxm hid
      rw [hse] at hxe
      have hex : e = x := Option.some.inj hxe
      exact (of_decide_eq_true hxp) (by rw [hex])

theorem docAfterRemove_filter_nil (st : DPRFixState) (doc : DocHead)
    (h : DPRInv st doc) :
    (docAfterRemove st doc).styles.filter (fun e => e.id = fixedStyleId) = [] :=
  List.filter_eq_nil_iff.mpr fun a ha => by
    simpa using docAfterRemove_no_fixed st doc h a ha

theorem fixedStyleEl_tag (n : ℕ) (rs : List CSSRule) : (fixedStyleEl n rs).tag = n := rfl

theorem fixedStyleEl_id (n : ℕ) (rs : List CSSRule) :
    (fixedStyleEl n rs).id = fixedStyleId := rfl

theorem fixedStyleEl_rules (n : ℕ) (rs : List CSSRule) :
    (fixedStyleEl n rs).rules = rs := rfl

theorem injectOptimizationCSS_post (st : DPRFixState) (doc : DocHead)
    (h : DPRInv st doc) :
    DPRInv (injectOptimizationCSS st doc).1 (injectOptimizationCSS st doc).2 ∧
    stylesWithFixedId (injectOptimizationCSS st doc).2 =
      (if selectRules st.currentDPR = [] then []
       else [fixedStyleEl st.nextTag (selectRules st.currentDPR)]) := by
  have hno := docAfterRemove_no_fixed st doc h
  have hsubl := docAfterRemove_styles_sublist st doc
  have hsub : ∀ x ∈ (docAfterRemove st doc).styles, x ∈ doc.styles :=
    fun x hx => hsubl.subset hx
  have hfil := docAfterRemove_filter_nil st doc h
  obtain ⟨h1, h2, h3, h4⟩ := h
  unfold injectOptimizationCSS
  split_ifs with hr
  · refine ⟨⟨?_, ?_, ?_, ?_⟩, hfil⟩
    · intro e he
      have := h1 e (hsub e he)
      show e.tag < st.nextTag + 1
      omega
    · exact h2.sublist (hsubl.map fun x => x.tag)
    · intro e he
      have := h3 e he
      show e.tag < st.nextTag + 1
      omega
    · intro x hx hid
      exact absurd hid (hno x hx)
  · refine ⟨⟨?_, ?_, ?_, ?_⟩, ?_⟩
    · intro e he
      rcases List.mem_append.mp he with hm | hm
      · have := h1 e (hsub e hm)
        show e.tag < st.nextTag + 1
        omega
      · rw [List.mem_singleton.mp hm, fixedStyleEl_tag]
        show st.nextTag < st.nextTag + 1
        omega
    · show (((docAfterRemove st doc).styles ++
        [fixedStyleEl st.nextTag (selectRules st.currentDPR)]).map (fun e => e.tag)).Nodup
      rw [List.map_append, List.nodup_append]
      refine ⟨h2.sublist (hsubl.map fun x => x.tag), by simp, ?_⟩
      intro a ha hb
      simp only [List.map_cons, List.map_nil, List.mem_singleton, fixedStyleEl_tag] at hb
      obtain ⟨x, hx, hax⟩ := List.mem_map.mp ha
      have := h1 x (hsub x hx)
      omega
    · intro e he
      have hee : fixedStyleEl st.nextTag (selectRules st.currentDPR) = e :=
        Option.some.inj he
      rw [← hee, fixedStyleEl_tag]
      show st.nextTag < st.nextTag + 1
      omega
    · intro x hx hid
      rcases List.mem_append.mp hx with hm | hm
      · exact absurd hid (hno x hm)
      · show _ = some x
        rw [List.mem_singleton.mp hm]
    · show (((docAfterRemove st doc).styles ++
        [fixedStyleEl st.nextTag (selectRules st.currentDPR)]).filter
          (fun e => e.id = fixedStyleId)) = _
      rw [List.filter_append, hfil]
      simp [fixedStyleEl_id]

theorem runDPR_inv (ds : List ℚ) :
    ∀ p : DPRFixState × DocHead, DPRInv p.1 p.2 →
      DPRInv (runDPR p ds).1 (runDPR p ds).2 := by
  induction ds with
  | nil => intro p h; exact h
  | cons d rest ih =>
      intro p h
      have hrw : runDPR p (d :: rest) =
          runDPR (handleDPRChange p.1 p.2 d) rest := rfl
      rw [hrw]
      exact ih _ ((injectOptimizationCSS_post _ _ (DPRInv_setDPR p.1 p.2 d h)).1)

theorem runDPR_append_single (p : DPRFixState × DocHead) (ds : List ℚ) (d : ℚ) :
    runDPR p (ds ++ [d]) =
      handleDPRChange (runDPR p ds).1 (runDPR p ds).2 d := by
  unfold runDPR
  rw [List.foldl_append]
  rfl

/-- C7 counterexample: at DPR exactly 1 the injected stylesheet only
disables transitions and animations under the body scrolling marker — none
of its declarations promotes a compositing layer, refuting the claim's
description of the aggressive rule set. -/
theorem dpr1_stylesheet_lacks_compositing_promotion :
    stylesWithFixedId (runDPR (initDPRFix, { styles := [] }) [1]).2 =
      [fixedStyleEl 0 dpr1Rules] ∧
    promotesCompositingLayer dpr1Rules = false := by
  constructor
  · have h1 : isDPR1 (1 : ℚ) = true := by norm_num [isDPR1]
    simp [runDPR, handleDPRChange, injectOptimizationCSS, initDPRFix, selectRules,
      h1, stylesWithFixedId, docAfterRemove, fixedStyleEl, dpr1Rules, fixedStyleId]
  · rfl

/-- C7 (amended): from a clean document, after any sequence of DPR changes
ending at `d`, at most one element with the fixed stylesheet id is present;
if `isDPR1 d` it carries the DPR=1 rule set (transitions and animations
disabled under the body scrolling marker — with no compositing-layer
promotion); else if `isLowDPR d` it carries the lighter rule set; else no
fixed-id stylesheet is present (any previously injected one was removed). -/
theorem dpr_stylesheet_classification (ds : List ℚ) (d : ℚ) :
    (stylesWithFixedId (runDPR (initDPRFix, { styles := [] }) (ds ++ [d])).2).length ≤ 1 ∧
    (isDPR1 d = true →
      (stylesWithFixedId (runDPR (initDPRFix, { styles := [] }) (ds ++ [d])).2).map
        (fun e => e.rules) = [dpr1Rules]) ∧
    (isDPR1 d = false → isLowDPR d = true →
      (stylesWithFixedId (runDPR (initDPRFix, { styles := [] }) (ds ++ [d])).2).map
        (fun e => e.rules) = [lowDPRRules]) ∧
    (isDPR1 d = false → isLowDPR d = false →
      stylesWithFixedId (runDPR (initDPRFix, { styles := [] }) (ds ++ [d])).2 = []) := by
  have hinv := runDPR_inv ds (initDPRFix, { styles := [] }) DPRInv_init
  obtain ⟨hinv2, hpost⟩ := injectOptimizationCSS_post
    { (runDPR (initDPRFix, { styles := [] }) ds).1 with currentDPR := d }
    (runDPR (initDPRFix, { styles := [] }) ds).2
    (DPRInv_setDPR _ _ d hinv)
  rw [runDPR_append_single]
  unfold handleDPRChange
  refine ⟨?_, fun hd1 => ?_, fun hd1 hlo => ?_, fun hd1 hlo => ?_⟩
  · rw [hpost]
    split_ifs <;> simp
  · rw [hpost]
    have hsel : selectRules d = dpr1Rules := by simp [selectRules, hd1]
    rw [show ({ (runDPR (initDPRFix, { styles := [] }) ds).1 with
      currentDPR := d } : DPRFixState).currentDPR = d from rfl] at hpost ⊢
    rw [hsel, if_neg (by simp [dpr1Rules])]
    simp [fixedStyleEl_rules]
  · rw [hpost]
    have hsel : selectRules d = lowDPRRules := by simp [selectRules, hd1, hlo]
    rw [show ({ (runDPR (initDPRFix, { styles := [] }) ds).1 with
      currentDPR := d } : DPRFixState).currentDPR = d from rfl] at hpost ⊢
    rw [hsel, if_neg (by simp [lowDPRRules])]
    simp [fixedStyleEl_rules]
  · rw [hpost]
    have hsel : selectRules d = [] := by simp [selectRules, hd1, hlo]
    rw [show ({ (runDPR (initDPRFix, { styles := [] }) ds).1 with
      currentDPR := d } : DPRFixState).currentDPR = d from rfl] at hpost ⊢
    rw [hsel, if_pos rfl]

/-- Witness for the amended C7: a single injection at DPR 2 — outside both
low-DPR classes — leaves no fixed-id stylesheet in the document. -/
theorem dpr_stylesheet_classification_witness :
    isDPR1 (2 : ℚ) = false ∧ isLowDPR (2 : ℚ) = false ∧
    stylesWithFixedId (runDPR (initDPRFix, { styles := [] }) ([] ++ [(2 : ℚ)])).2 = [] :=
  ⟨by norm_num [isDPR1], by norm_num [isLowDPR],
    (dpr_stylesheet_classification [] 2).2.2.2 (by norm_num [isDPR1])
      (by norm_num [isLowDPR])⟩

/-- C8: one transition of the shared scroll boolean performs exactly one
global DOM mutation — toggling the `bewly-scrolling` class on the body —
and leaves every per-element attribute (and everything else) unchanged. -/
theorem scrolling_marker_single_mutation (scrolling : Bool) (dom : PageDom) :
    (scrollWatchMutations scrolling).length = 1 ∧
    (applyMutations dom (scrollWatchMutations scrolling)).elemAttrs = dom.elemAttrs ∧
    (applyMutations dom (scrollWatchMutations scrolling)).bodyClasses =
      (if scrolling then classListAdd dom.bodyClasses scrollingClass
       else classListRemove dom.bodyClasses scrollingClass) := by
  cases scrolling <;>
    simp [scrollWatchMutations, applyMutations, applyMutation]

end BewlyCat
